import Mathlib

/-!
Shallow embedding of the shirt.sh payment-commit coordinator and retry
policy engine, with theorems checking the specification's claims.

The embedding follows the TypeScript sources:
* the retry engine (`withRetry`, `calculateDelay`, `DEFAULT_RETRY_OPTIONS`,
  the `RETRY_PRESETS` table) from `src/lib/utils/retry.ts`;
* the payment helpers `verifyPayment` / `settlePayment` from
  `src/lib/x402-payment.ts`;
* the `POST /api/shirts` coordinator from `src/app/api/shirts/route.ts`;
* the dynamically priced `POST /api/shirts/products/[productId]/order`
  coordinator together with `verifyX402Payment` from
  `src/lib/payments/verify-x402-payment.ts`.

External collaborators (the x402 facilitator, the Printify SDK, `fetch`,
`Math.random`, JSON parsing of the request body) are modelled as explicit
environment inputs describing every outcome the TypeScript code can
observe from them; everything the repository's own code does with those
outcomes is translated directly.
-/

namespace ShirtSh

/-- `s.includes(pat)` on JavaScript strings: `pat` occurs as a contiguous
substring of `s` (over the character lists). -/
def listContainsSub : List Char → List Char → Bool
  | _, [] => true
  | [], _ :: _ => false
  | c :: t, p :: q => (List.isPrefixOf (p :: q) (c :: t)) || listContainsSub t (p :: q)

/-- JavaScript `String.prototype.includes`. -/
def strIncludes (s pat : String) : Bool :=
  listContainsSub s.toList pat.toList

/-! ## Retry policy engine (`src/lib/utils/retry.ts`) -/

/-- `RetryOptions` from `retry.ts`.  Errors are represented by their
message string, since every retry predicate in the source inspects only
`error.message`.  Durations are exact rationals (milliseconds). -/
structure RetryOptions where
  maxAttempts : Nat
  initialDelay : ℚ
  maxDelay : ℚ
  backoffMultiplier : ℚ
  jitter : Bool
  retryOn : String → Bool

/-- The `retryOn` closure of `DEFAULT_RETRY_OPTIONS`: substring checks on
the error message, in source order. -/
def defaultRetryOn (msg : String) : Bool :=
  if strIncludes msg "timeout" then true
  else if strIncludes msg "network" then true
  else if strIncludes msg "ECONNRESET" then true
  else if strIncludes msg "ENOTFOUND" then true
  else if strIncludes msg "500" then true
  else if strIncludes msg "502" then true
  else if strIncludes msg "503" then true
  else if strIncludes msg "504" then true
  else false

/-- `DEFAULT_RETRY_OPTIONS` from `retry.ts`. -/
def DEFAULT_RETRY_OPTIONS : RetryOptions :=
  { maxAttempts := 3
    initialDelay := 1000
    maxDelay := 30000
    backoffMultiplier := 2
    jitter := true
    retryOn := defaultRetryOn }

/-- The `retryOn` closure of `RETRY_PRESETS.PRINTIFY_OPERATION`:
retryable network/5xx checks, then non-retryable 4xx checks, then the
429 rate-limit exception, in source order. -/
def printifyRetryOn (msg : String) : Bool :=
  if strIncludes msg "timeout" then true
  else if strIncludes msg "network" then true
  else if strIncludes msg "ECONNRESET" then true
  else if strIncludes msg "ENOTFOUND" then true
  else if strIncludes msg "500" then true
  else if strIncludes msg "502" then true
  else if strIncludes msg "503" then true
  else if strIncludes msg "504" then true
  else if strIncludes msg "400" then false
  else if strIncludes msg "401" then false
  else if strIncludes msg "403" then false
  else if strIncludes msg "404" then false
  else if strIncludes msg "422" then false
  else if strIncludes msg "429" then true
  else false

/-- `RETRY_PRESETS.PRINTIFY_OPERATION` from `retry.ts`. -/
def PRINTIFY_OPERATION : RetryOptions :=
  { maxAttempts := 4
    initialDelay := 1500
    maxDelay := 20000
    backoffMultiplier := 9/5
    jitter := true
    retryOn := printifyRetryOn }

/-- The `retryOn` closure of `RETRY_PRESETS.IMAGE_GENERATION`. -/
def imageGenerationRetryOn (msg : String) : Bool :=
  if strIncludes msg "timeout" then true
  else if strIncludes msg "network" then true
  else if strIncludes msg "rate" then true
  else if strIncludes msg "429" then true
  else if strIncludes msg "500" then true
  else if strIncludes msg "502" then true
  else if strIncludes msg "503" then true
  else if strIncludes msg "504" then true
  else false

/-- `RETRY_PRESETS.WORKFLOW` from `retry.ts` (spread over the defaults at
the call site, so its `retryOn` is the default one). -/
def WORKFLOW_OPTIONS : RetryOptions :=
  { maxAttempts := 2
    initialDelay := 5000
    maxDelay := 60000
    backoffMultiplier := 2
    jitter := true
    retryOn := defaultRetryOn }

/-- A call site's `Partial<RetryOptions>`: absent fields fall back to
`DEFAULT_RETRY_OPTIONS` through the object spread in `withRetry`. -/
structure PartialRetryOptions where
  maxAttempts : Option Nat := none
  initialDelay : Option ℚ := none
  maxDelay : Option ℚ := none
  backoffMultiplier : Option ℚ := none
  jitter : Option Bool := none
  retryOn : Option (String → Bool) := none

/-- `const config = { ...DEFAULT_RETRY_OPTIONS, ...options }`. -/
def mergeRetryOptions (o : PartialRetryOptions) : RetryOptions :=
  { maxAttempts := o.maxAttempts.getD DEFAULT_RETRY_OPTIONS.maxAttempts
    initialDelay := o.initialDelay.getD DEFAULT_RETRY_OPTIONS.initialDelay
    maxDelay := o.maxDelay.getD DEFAULT_RETRY_OPTIONS.maxDelay
    backoffMultiplier := o.backoffMultiplier.getD DEFAULT_RETRY_OPTIONS.backoffMultiplier
    jitter := o.jitter.getD DEFAULT_RETRY_OPTIONS.jitter
    retryOn := o.retryOn.getD DEFAULT_RETRY_OPTIONS.retryOn }

/-- `calculateDelay(attempt, options)` from `retry.ts`.  `rand` is the
value `Math.random()` returned for this call (a number in `[0,1)`),
passed explicitly. -/
def calculateDelay (attempt : Nat) (options : RetryOptions) (rand : ℚ) : ℚ :=
  let exponentialDelay := options.initialDelay * options.backoffMultiplier ^ (attempt - 1)
  let delay := min exponentialDelay options.maxDelay
  if options.jitter then
    let jitterAmount := delay * (1/4)
    delay + (rand - 1/2) * 2 * jitterAmount
  else
    delay

/-- Observable outcome of `withRetry`: the value or thrown error,
tagged with the number of the attempt that produced it.  `noAttempt`
is the degenerate `maxAttempts = 0` case in which the loop body never
runs and the trailing `throw lastError!` throws `undefined`. -/
inductive RetryResult (T : Type) where
  | ok (value : T) (attempt : Nat)
  | err (message : String) (attempt : Nat)
  | noAttempt
deriving DecidableEq, Repr

/-- Number of times the wrapped operation was invoked in a run. -/
def RetryResult.attempts {T : Type} : RetryResult T → Nat
  | .ok _ a => a
  | .err _ a => a
  | .noAttempt => 0

/-- The `for (let attempt = 1; attempt <= config.maxAttempts; attempt++)`
loop of `withRetry`.  `op k` is the outcome of the `k`-th invocation of
the wrapped operation (`Except.error` = the operation rejected with that
message), `rnd k` is the `Math.random()` draw used for the backoff after
attempt `k`, `attempt` is the current loop counter and `remaining` is
`config.maxAttempts - attempt + 1`.  The second component collects the
delays slept between attempts, in order. -/
def withRetryGo {T : Type} (op : Nat → Except String T) (cfg : RetryOptions)
    (rnd : Nat → ℚ) : Nat → Nat → RetryResult T × List ℚ
  | _, 0 => (.noAttempt, [])
  | attempt, r + 1 =>
    match op attempt with
    | .ok v => (.ok v attempt, [])
    | .error e =>
      if cfg.retryOn e = false then (.err e attempt, [])
      else if r = 0 then (.err e attempt, [])
      else
        let rest := withRetryGo op cfg rnd (attempt + 1) r
        (rest.1, calculateDelay attempt cfg (rnd attempt) :: rest.2)

/-- `withRetry(fn, options)` with the merged configuration `cfg`. -/
def withRetry {T : Type} (op : Nat → Except String T) (cfg : RetryOptions)
    (rnd : Nat → ℚ) : RetryResult T × List ℚ :=
  withRetryGo op cfg rnd 1 cfg.maxAttempts

/-! ## Payment helpers (`src/lib/x402-payment.ts`) -/

/-- `PaymentConfig` from `x402-payment.ts`.  The network is kept as its
identifier string. -/
structure PaymentConfig where
  price : String
  network : String
  description : String
  resource : String
deriving DecidableEq, Repr

/-- The fields of `processPriceToAtomicAmount`'s success value that the
source reads: `maxAmountRequired` and `asset` (address plus the optional
`eip712` extra). -/
structure AssetInfo where
  maxAmountRequired : String
  assetAddress : String
  eip712 : Option String
deriving DecidableEq, Repr

/-- One entry of the `paymentRequirements` array built in `verifyPayment`. -/
structure PaymentRequirement where
  scheme : String
  network : String
  maxAmountRequired : String
  resource : String
  description : String
  mimeType : String
  payTo : String
  maxTimeoutSeconds : Nat
  asset : String
  extra : Option String
deriving DecidableEq, Repr

/-- `PAY_TO_ADDRESS` from `x402-payment.ts`. -/
def PAY_TO_ADDRESS : String := "0xDDeAeb4639A7fC213264b57c8dc81a36229687dB"

/-- The single requirement object pushed onto `paymentRequirements` when
the network is a supported EVM network. -/
def buildRequirement (config : PaymentConfig) (a : AssetInfo) : PaymentRequirement :=
  { scheme := "exact"
    network := config.network
    maxAmountRequired := a.maxAmountRequired
    resource := config.resource
    description := config.description
    mimeType := "application/json"
    payTo := PAY_TO_ADDRESS
    maxTimeoutSeconds := 300
    asset := a.assetAddress
    extra := a.eip712 }

/-- The full `paymentRequirements` array constructed by `verifyPayment`
for a supported network. -/
def constructedRequirements (config : PaymentConfig) (a : AssetInfo) : List PaymentRequirement :=
  [buildRequirement config a]

/-- JSON bodies produced by `verifyPayment` failures and by the
`POST /api/shirts` handler. -/
inductive RespBody where
  | configError (error : String)
  | paymentRequired (error : String) (accepts : List PaymentRequirement) (payer : Option String)
  | badRequest
  | unprocessable (code message : String)
  | completed (id : String) (productId : Option String) (orderId : Option String)
  | workflowFailed (message : String)
  | internalError
deriving DecidableEq, Repr

/-- An HTTP response: status code plus JSON body. -/
structure HttpResponse where
  status : Nat
  body : RespBody
deriving DecidableEq, Repr

/-- The decoded payment of `exact.evm.decodePayment` with the
`x402Version` field the source then assigns. -/
structure DecodedPayment where
  token : String
  x402Version : Nat
deriving DecidableEq, Repr

/-- The facilitator verifier's answer
`{ isValid, invalidReason?, payer? }`. -/
structure FacilitatorVerdict where
  isValid : Bool
  invalidReason : Option String
  payer : Option String
deriving DecidableEq, Repr

/-- Everything `verifyPayment` observes from its collaborators for one
request: the outcome of `processPriceToAtomicAmount`, whether
`SupportedEVMNetworks.includes(config.network)`, the raw `X-PAYMENT`
header, the outcome of `exact.evm.decodePayment` (error = the thrown
message), the scheme/network matching predicate used by
`findMatchingPaymentRequirements`, and the facilitator `verify` verdict. -/
structure VerifyEnv where
  priceResult : Except String AssetInfo
  networkSupported : Bool
  paymentHeader : Option String
  decodeResult : Except String String
  matchesReq : DecodedPayment → PaymentRequirement → Bool
  verdict : FacilitatorVerdict

/-- Result of `verifyPayment`: either the decoded payment with its
matched requirement, or a terminal response. -/
inductive VerifyPaymentResult where
  | ok (payment : DecodedPayment) (requirements : PaymentRequirement)
  | fail (response : HttpResponse)
deriving DecidableEq, Repr

/-- `x402Version` constant from `x402-payment.ts`. -/
def x402Version : Nat := 1

/-- `verifyPayment(req, config)` from `x402-payment.ts`, over the
collaborator environment.  The second component counts the calls made to
the facilitator `verify` function. -/
def verifyPayment (config : PaymentConfig) (env : VerifyEnv) : VerifyPaymentResult × Nat :=
  match env.priceResult with
  | .error e => (.fail ⟨500, .configError e⟩, 0)
  | .ok asset =>
    if env.networkSupported then
      let paymentRequirements := constructedRequirements config asset
      match env.paymentHeader with
      | none =>
        (.fail ⟨402, .paymentRequired "X-PAYMENT header is required" paymentRequirements none⟩, 0)
      | some _ =>
        match env.decodeResult with
        | .error e => (.fail ⟨402, .paymentRequired e paymentRequirements none⟩, 0)
        | .ok tok =>
          let decodedPayment : DecodedPayment := ⟨tok, x402Version⟩
          match paymentRequirements.find? (fun r => env.matchesReq decodedPayment r) with
          | none =>
            (.fail ⟨402, .paymentRequired "Unable to find matching payment requirements"
              paymentRequirements none⟩, 0)
          | some selected =>
            if env.verdict.isValid then
              (.ok decodedPayment selected, 1)
            else
              (.fail ⟨402, .paymentRequired
                (env.verdict.invalidReason.getD "Payment verification failed")
                paymentRequirements env.verdict.payer⟩, 1)
    else
      (.fail ⟨500, .configError ("Unsupported network: " ++ config.network)⟩, 0)

/-- Behaviour of the facilitator `settle` collaborator on one call:
report success with transaction details, report failure
(`settlement.success` false), or throw (with an `Error` carrying a
message, or a non-`Error` value). -/
inductive SettleBehaviour where
  | succeeds (transaction network payer : String)
  | reportsFailure
  | throwsError (message : String)
  | throwsNonError
deriving DecidableEq, Repr

/-- The value `settlePayment` resolves with. -/
structure SettleResult where
  success : Bool
  transaction : Option String
  network : Option String
  payer : Option String
  error : Option String
deriving DecidableEq, Repr

/-- `settlePayment(payment, requirements)` from `x402-payment.ts`, as a
function of the `settle` collaborator's behaviour on this call. -/
def settlePayment (b : SettleBehaviour) : SettleResult :=
  match b with
  | .succeeds t n p =>
    { success := true, transaction := some t, network := some n, payer := some p, error := none }
  | .reportsFailure =>
    { success := false, transaction := none, network := none, payer := none,
      error := some "Settlement failed" }
  | .throwsError m =>
    { success := false, transaction := none, network := none, payer := none, error := some m }
  | .throwsNonError =>
    { success := false, transaction := none, network := none, payer := none,
      error := some "Settlement error" }

/-! ## Create-shirt workflow (`src/lib/tasks/create-shirt-workflow.ts`) -/

/-- `ShirtWorkflowResult` (the fields `POST /api/shirts` reads). -/
structure WorkflowResult where
  success : Bool
  jobId : String
  imageUrl : Option String
  productId : Option String
  orderId : Option String
  error : Option String
deriving DecidableEq, Repr

/-- `executeCreateShirtWorkflow`: the composite generate-image /
create-product / submit-order operation (whose per-attempt outcome is
`op`) run under `withRetry` with the `WORKFLOW` preset, with the final
`.catch` converting any raised error into a `success: false` result.
The function itself never raises. -/
def executeCreateShirtWorkflow (op : Nat → Except String (String × String × String))
    (rnd : Nat → ℚ) (jobId : String) : WorkflowResult :=
  match (withRetry op WORKFLOW_OPTIONS rnd).1 with
  | .ok (img, pid, oid) _ =>
    { success := true, jobId := jobId, imageUrl := some img, productId := some pid,
      orderId := some oid, error := none }
  | .err e _ =>
    { success := false, jobId := jobId, imageUrl := none, productId := none,
      orderId := none, error := some e }
  | .noAttempt =>
    { success := false, jobId := jobId, imageUrl := none, productId := none,
      orderId := none, error := some "Unknown error occurred" }

/-! ## `POST /api/shirts` (`src/app/api/shirts/route.ts`) -/

/-- Everything one `POST /api/shirts` request observes from outside the
handler's own code: the request URL (for the `resource` field), the
payment-verification environment, the outcome of `req.json()` (error =
the thrown message, caught by the handler's outer `catch`), the Zod
`safeParse` verdict, the business-rule verdict on the parsed address,
the generated job id, the per-attempt outcome of the shirt workflow's
composite operation, the `Math.random()` stream, and the settle
collaborator's behaviour. -/
structure ShirtEnv where
  resourceUrl : String
  verifyEnv : VerifyEnv
  bodyParse : Except String Unit
  zodOk : Bool
  bizOk : Bool
  jobId : String
  workflowOp : Nat → Except String (String × String × String)
  rnd : Nat → ℚ
  settle : SettleBehaviour

/-- The `PaymentConfig` literal passed to `verifyPayment` in
`POST /api/shirts`. -/
def shirtConfig (resourceUrl : String) : PaymentConfig :=
  { price := "$20.00"
    network := "base"
    description := "AI-generated shirt design + purchase"
    resource := resourceUrl }

/-- Observable outcome of one `POST /api/shirts` request: the response,
the number of facilitator `verify` calls, the number of `settlePayment`
calls, and the number of settlement-failure warnings logged. -/
structure PostResult where
  response : HttpResponse
  verifyCalls : Nat
  settleCalls : Nat
  settlementWarnings : Nat
deriving DecidableEq, Repr

/-- The `POST` handler of `/api/shirts`.  Mirrors the source: verify
payment first (returning its response on failure), then parse and
validate the body (a `req.json()` rejection reaches the outer `catch`,
which answers 500 without settling), run the workflow, and settle only
when the workflow result reports success; a settlement failure is
logged but the 200 response stands. -/
def shirtPOST (env : ShirtEnv) : PostResult :=
  let vp := verifyPayment (shirtConfig env.resourceUrl) env.verifyEnv
  match vp.1 with
  | .fail resp => ⟨resp, vp.2, 0, 0⟩
  | .ok _ _ =>
    match env.bodyParse with
    | .error _ => ⟨⟨500, .internalError⟩, vp.2, 0, 0⟩
    | .ok _ =>
      if env.zodOk = false then
        ⟨⟨400, .badRequest⟩, vp.2, 0, 0⟩
      else if env.bizOk = false then
        ⟨⟨422, .unprocessable "INVALID_ADDRESS" "Invalid US ZIP format"⟩, vp.2, 0, 0⟩
      else
        let result := executeCreateShirtWorkflow env.workflowOp env.rnd env.jobId
        if result.success then
          let settlement := settlePayment env.settle
          ⟨⟨200, .completed env.jobId result.productId result.orderId⟩, vp.2, 1,
            if settlement.success then 0 else 1⟩
        else
          ⟨⟨500, .workflowFailed (result.error.getD "Shirt creation workflow failed")⟩,
            vp.2, 0, 0⟩

/-! ## Dynamic-pricing payment check (`src/lib/payments/verify-x402-payment.ts`) -/

/-- The fetch response observed by `verifyX402Payment`: HTTP `ok` flag,
`statusText`, and the parsed JSON's `valid` / `error` fields. -/
structure FetchResp where
  ok : Bool
  statusText : String
  valid : Bool
  errorMsg : Option String
deriving DecidableEq, Repr

/-- What one `verifyX402Payment` call observes: the `X-Payment-Token`
header and the outcome of the facilitator `fetch` (error = the message
of an exception thrown by `fetch` or by `response.json()`, handled by
the function's `catch`). -/
structure VerifyX402Env where
  paymentToken : Option String
  fetchResult : Except String FetchResp

/-- The `{ valid, error? }` value `verifyX402Payment` resolves with. -/
structure VerifyX402Result where
  valid : Bool
  error : Option String
deriving DecidableEq, Repr

/-- `verifyX402Payment(req, expectedAmountInCents)`: never raises; every
collaborator failure is mapped to `{ valid: false }` with a message. -/
def verifyX402Payment (env : VerifyX402Env) : VerifyX402Result :=
  match env.paymentToken with
  | none =>
    { valid := false,
      error := some "Missing payment token. Please include X-Payment-Token header." }
  | some _ =>
    match env.fetchResult with
    | .error m => { valid := false, error := some m }
    | .ok r =>
      if r.ok = false then
        { valid := false, error := some ("Payment verification failed: " ++ r.statusText) }
      else if r.valid = false then
        { valid := false, error := some (r.errorMsg.getD "Payment verification failed") }
      else
        { valid := true, error := none }

/-! ## `POST /api/shirts/products/[productId]/order`
(`src/app/api/shirts/products/[productId]/order/route.ts`) -/

/-- JavaScript truthiness of the optional `creatorAddress` string. -/
def jsTruthy : Option String → Bool
  | none => false
  | some s => s ≠ ""

/-- A Printify product variant (the fields this route reads). -/
structure PrintifyVariant where
  id : Nat
  isEnabled : Bool
deriving DecidableEq, Repr

/-- A Printify product (the fields this route reads). -/
structure Product where
  variants : List PrintifyVariant
deriving DecidableEq, Repr

/-- The metadata `extractProductMetadata` yields (the fields this route
reads): margin in cents and the optional creator wallet address. -/
structure ProductMeta where
  margin : Int
  creatorAddress : Option String
deriving DecidableEq, Repr

/-- Everything one `POST .../order` request observes from outside the
handler's own code, in the order the handler consults it: `req.json()`,
Zod validation, business rules, `getPrintifyProduct` (error = a raised
message after its retries), `extractProductMetadata`, the
`verifyX402Payment` environment, `createPrintifyOrder` (ok = the created
order's id), and `transferMarginToCreator` (ok = the transfer tx hash,
error = the thrown message). -/
structure OrderEnv where
  productId : String
  bodyParse : Except String Unit
  zodOk : Bool
  bizOk : Bool
  productFetch : Except String (Option Product)
  metadata : Option ProductMeta
  verifyEnv : VerifyX402Env
  orderResult : Except String String
  splitResult : Except String String
  jobId : String

/-- JSON bodies produced by the order route. -/
inductive OrderRespBody where
  | badRequest
  | unprocessable (code message : String)
  | notFound (message : String)
  | invalidProduct
  | paymentRequired (priceInCents : Int)
  | variantNotFound
  | completed (id productId orderId : String) (splitPaymentTx : Option String)
  | internalError (message : String)
deriving DecidableEq, Repr

/-- An HTTP response of the order route. -/
structure OrderHttpResponse where
  status : Nat
  body : OrderRespBody
deriving DecidableEq, Repr

/-- Observable outcome of one `POST .../order` request.  `settleCalls`
counts calls to `settlePayment`: the route never imports or calls it
(payment is only verified via `verifyX402Payment`), so the handler
contributes no settlement call on any path.  `splitAttempts` counts
calls to `transferMarginToCreator`, `splitFailureLogs` the
`[Split Payment] Failed` error logs. -/
structure OrderPostResult where
  response : OrderHttpResponse
  settleCalls : Nat
  splitAttempts : Nat
  splitFailureLogs : Nat
deriving DecidableEq, Repr

/-- `BASE_ORDER_PRICE` from the order route. -/
def BASE_ORDER_PRICE : Int := 2000

/-- The `POST` handler of `/api/shirts/products/[productId]/order`.
Mirrors the source: body validation, product fetch and metadata
extraction happen before payment verification; dynamic price is
`BASE_ORDER_PRICE + margin`; after a successful order creation the
margin split is attempted at most once (only when the product carries a
truthy creator address and a positive margin), and a split failure is
logged without failing the order. -/
def orderPOST (env : OrderEnv) : OrderPostResult :=
  match env.bodyParse with
  | .error m => ⟨⟨500, .internalError m⟩, 0, 0, 0⟩
  | .ok _ =>
    if env.zodOk = false then
      ⟨⟨400, .badRequest⟩, 0, 0, 0⟩
    else if env.bizOk = false then
      ⟨⟨422, .unprocessable "INVALID_ADDRESS" "Invalid US ZIP format"⟩, 0, 0, 0⟩
    else
      match env.productFetch with
      | .error m => ⟨⟨500, .internalError m⟩, 0, 0, 0⟩
      | .ok none => ⟨⟨404, .notFound ("Product " ++ env.productId ++ " not found")⟩, 0, 0, 0⟩
      | .ok (some product) =>
        match env.metadata with
        | none => ⟨⟨500, .invalidProduct⟩, 0, 0, 0⟩
        | some md =>
          let totalPriceInCents : Int := BASE_ORDER_PRICE + md.margin
          if (verifyX402Payment env.verifyEnv).valid = false then
            ⟨⟨402, .paymentRequired totalPriceInCents⟩, 0, 0, 0⟩
          else
            match product.variants.find? (fun v => v.isEnabled) with
            | none => ⟨⟨404, .variantNotFound⟩, 0, 0, 0⟩
            | some _ =>
              match env.orderResult with
              | .error m => ⟨⟨500, .internalError m⟩, 0, 0, 0⟩
              | .ok orderId =>
                if jsTruthy md.creatorAddress && decide (0 < md.margin) then
                  match env.splitResult with
                  | .ok tx =>
                    ⟨⟨200, .completed env.jobId env.productId orderId (some tx)⟩, 0, 1, 0⟩
                  | .error _ =>
                    ⟨⟨200, .completed env.jobId env.productId orderId none⟩, 0, 1, 1⟩
                else
                  ⟨⟨200, .completed env.jobId env.productId orderId none⟩, 0, 0, 0⟩

/-! ## Helper lemmas about the retry loop -/

/-- If every attempt fails with a retryable error, the loop started at
`attempt = a` with `r ≥ 1` attempts remaining ends by re-raising the
error of attempt `a + r - 1`, having made exactly that attempt last. -/
theorem withRetryGo_allFail {T : Type} (op : Nat → Except String T) (cfg : RetryOptions)
    (rnd : Nat → ℚ) (errs : Nat → String)
    (hop : ∀ k, op k = Except.error (errs k))
    (hretry : ∀ k, cfg.retryOn (errs k) = true) :
    ∀ r a, 1 ≤ r →
      (withRetryGo op cfg rnd a r).1 = RetryResult.err (errs (a + r - 1)) (a + r - 1) := by
  intro r
  induction r with
  | zero => intro a h; omega
  | succ m ih =>
    intro a _
    match m, ih with
    | 0, _ =>
      simp [withRetryGo, hop a, hretry a]
    | n + 1, ih =>
      have hrec := ih (a + 1) (by omega)
      have harith : a + 1 + (n + 1) - 1 = a + (n + 1 + 1) - 1 := by omega
      rw [harith] at hrec
      simp only [withRetryGo, hop a, hretry a]
      simpa using hrec

/-- Every delay the loop sleeps is produced by `calculateDelay` at the
attempt number that just failed: the `j`-th recorded delay of the loop
started at attempt `a` is `calculateDelay (a + j)`. -/
theorem withRetryGo_delay_index {T : Type} (op : Nat → Except String T) (cfg : RetryOptions)
    (rnd : Nat → ℚ) :
    ∀ r a j d, ((withRetryGo op cfg rnd a r).2)[j]? = some d →
      d = calculateDelay (a + j) cfg (rnd (a + j)) := by
  intro r
  induction r with
  | zero => intro a j d h; simp [withRetryGo] at h
  | succ m ih =>
    intro a j d h
    rcases m with _ | n
    · rcases hop : op a with e | v <;> simp [withRetryGo, hop] at h
    · rcases hop : op a with e | v
      · by_cases hr : cfg.retryOn e = false
        · simp [withRetryGo, hop, hr] at h
        · simp only [withRetryGo, hop, if_pos, if_neg hr] at h
          simp only [Nat.succ_ne_zero, if_false] at h
          rcases j with _ | j
          · simp at h
            simp [h]
          · simp at h
            have := ih (a + 1) j d h
            have harith : a + 1 + j = a + (j + 1) := by omega
            rw [harith] at this
            exact this
      · simp [withRetryGo, hop] at h

/-! ## Claim theorems: retry engine -/

/-- C2: for every `RetryOptions` with `maxAttempts = n` (`n ≥ 1`) and
every operation failing on every invocation with a retryable error,
`withRetry` invokes the operation exactly `n` times and finally raises
the error produced by the `n`-th attempt. -/
theorem c2_retry_exhaustion {T : Type} (cfg : RetryOptions) (n : Nat)
    (hn : 1 ≤ n) (hmax : cfg.maxAttempts = n)
    (op : Nat → Except String T) (errs : Nat → String) (rnd : Nat → ℚ)
    (hop : ∀ k, op k = Except.error (errs k))
    (hretry : ∀ k, cfg.retryOn (errs k) = true) :
    (withRetry op cfg rnd).1 = RetryResult.err (errs n) n
    ∧ (withRetry op cfg rnd).1.attempts = n := by
  have h := withRetryGo_allFail op cfg rnd errs hop hretry n 1 hn
  have harith : 1 + n - 1 = n := by omega
  rw [harith] at h
  rw [withRetry, hmax]
  exact ⟨h, by rw [h]; rfl⟩

/-- C2 witness: the default options retried a persistent timeout error
3 times and raised the third attempt's error. -/
theorem c2_retry_exhaustion_witness :
    (withRetry (fun _ => (Except.error "connect ECONNRESET" : Except String Unit))
        DEFAULT_RETRY_OPTIONS (fun _ => 0)).1
      = RetryResult.err "connect ECONNRESET" 3 :=
  (c2_retry_exhaustion DEFAULT_RETRY_OPTIONS 3 (by decide) rfl
    (fun _ => Except.error "connect ECONNRESET")
    (fun _ => "connect ECONNRESET") (fun _ => 0)
    (fun _ => rfl) (fun _ => rfl)).1

/-- C3: an operation whose first failure the predicate rejects is
attempted exactly once and its error re-raised immediately, for any
`maxAttempts ≥ 1`; moreover with `maxAttempts = 1` every operation is
attempted exactly once with no backoff sleep. -/
theorem c3_nonretryable_single_attempt {T : Type} (cfg : RetryOptions)
    (hmax : 1 ≤ cfg.maxAttempts)
    (op : Nat → Except String T) (rnd : Nat → ℚ) (e : String)
    (hop : op 1 = Except.error e) (hpred : cfg.retryOn e = false) :
    (withRetry op cfg rnd).1 = RetryResult.err e 1
    ∧ (withRetry op cfg rnd).1.attempts = 1
    ∧ (∀ cfg2 : RetryOptions, cfg2.maxAttempts = 1 →
        ∀ op2 : Nat → Except String T,
          (withRetry op2 cfg2 rnd).1.attempts = 1 ∧ (withRetry op2 cfg2 rnd).2 = []) := by
  refine ⟨?_, ?_, ?_⟩
  · rcases hm : cfg.maxAttempts with _ | m
    · omega
    · rw [withRetry, hm]
      simp [withRetryGo, hop, hpred]
  · rcases hm : cfg.maxAttempts with _ | m
    · omega
    · rw [withRetry, hm]
      simp [withRetryGo, hop, hpred, RetryResult.attempts]
  · intro cfg2 hone op2
    rw [withRetry, hone]
    rcases hop2 : op2 1 with e2 | v2
    · by_cases hr : cfg2.retryOn e2 = false <;>
        simp [withRetryGo, hop2, hr, RetryResult.attempts]
    · simp [withRetryGo, hop2, RetryResult.attempts]

/-- C3 witness: under the Printify preset (`maxAttempts = 4`) a first
failure mentioning HTTP 400 is raised after exactly one attempt. -/
theorem c3_nonretryable_single_attempt_witness :
    (withRetry (fun _ => (Except.error "Printify API error: 400 Bad Request" : Except String Unit))
        PRINTIFY_OPERATION (fun _ => 0)).1
      = RetryResult.err "Printify API error: 400 Bad Request" 1 :=
  (c3_nonretryable_single_attempt PRINTIFY_OPERATION (by decide)
    (fun _ => Except.error "Printify API error: 400 Bad Request") (fun _ => 0)
    "Printify API error: 400 Bad Request" rfl (by decide)).1

/-- C5: the delay slept before attempt `k` (`k ≥ 2`) is
`calculateDelay (k-1)`; without jitter it equals
`min(initialDelay * backoffMultiplier^(k-2), maxDelay)` exactly, and
with jitter (random draw `rand ∈ [0,1]` a parameter) it lies within
`[base*3/4, base*5/4]` of that base value. -/
theorem c5_backoff_delay (cfg : RetryOptions) (k : Nat) (hk : 2 ≤ k) (rand : ℚ) :
    (cfg.jitter = false →
      calculateDelay (k - 1) cfg rand
        = min (cfg.initialDelay * cfg.backoffMultiplier ^ (k - 2)) cfg.maxDelay)
    ∧ (cfg.jitter = true → 0 ≤ rand → rand ≤ 1 →
        0 ≤ cfg.initialDelay → 0 ≤ cfg.maxDelay → 0 ≤ cfg.backoffMultiplier →
        (3/4) * min (cfg.initialDelay * cfg.backoffMultiplier ^ (k - 2)) cfg.maxDelay
            ≤ calculateDelay (k - 1) cfg rand
        ∧ calculateDelay (k - 1) cfg rand
            ≤ (5/4) * min (cfg.initialDelay * cfg.backoffMultiplier ^ (k - 2)) cfg.maxDelay)
    ∧ (∀ {T : Type} (op : Nat → Except String T) (rnd : Nat → ℚ) (d : ℚ),
        ((withRetry op cfg rnd).2)[k - 2]? = some d →
        d = calculateDelay (k - 1) cfg (rnd (k - 1))) := by
  have hkk : k - 1 - 1 = k - 2 := by omega
  refine ⟨?_, ?_, ?_⟩
  · intro hj
    simp only [calculateDelay, hj, Bool.false_eq_true, if_false]
    rw [hkk]
  · intro hj h0 h1 hi hm hb
    have hpow : (0:ℚ) ≤ cfg.backoffMultiplier ^ (k - 2) := pow_nonneg hb _
    have hx : (0:ℚ) ≤ cfg.initialDelay * cfg.backoffMultiplier ^ (k - 2) :=
      mul_nonneg hi hpow
    have hmin : (0:ℚ) ≤ min (cfg.initialDelay * cfg.backoffMultiplier ^ (k - 2)) cfg.maxDelay :=
      le_min hx hm
    simp only [calculateDelay, hj, if_true]
    rw [hkk]
    constructor
    · nlinarith [mul_nonneg hmin h0]
    · nlinarith [mul_nonneg hmin (by linarith : (0:ℚ) ≤ 1 - rand)]
  · intro T op rnd d hd
    have h := withRetryGo_delay_index op cfg rnd cfg.maxAttempts 1 (k - 2) d hd
    have harith : 1 + (k - 2) = k - 1 := by omega
    rw [harith] at h
    exact h

/-- C5 witness: for the default options and attempt 3, the non-jittered
delay equals `min(1000 * 2^1, 30000)` and the jittered delay at
`rand = 9/10` lies within the ±25% band of that base. -/
theorem c5_backoff_delay_witness :
    calculateDelay 2 { DEFAULT_RETRY_OPTIONS with jitter := false } (1/2)
        = min ((1000 : ℚ) * 2 ^ 1) 30000
    ∧ (3/4) * min ((1000 : ℚ) * 2 ^ 1) 30000 ≤ calculateDelay 2 DEFAULT_RETRY_OPTIONS (9/10)
    ∧ calculateDelay 2 DEFAULT_RETRY_OPTIONS (9/10) ≤ (5/4) * min ((1000 : ℚ) * 2 ^ 1) 30000 := by
  have h1 := (c5_backoff_delay { DEFAULT_RETRY_OPTIONS with jitter := false } 3
    (by norm_num) (1/2)).1 rfl
  have h2 := (c5_backoff_delay DEFAULT_RETRY_OPTIONS 3 (by norm_num) (9/10)).2.1 rfl
    (by norm_num) (by norm_num)
    (by norm_num [DEFAULT_RETRY_OPTIONS]) (by norm_num [DEFAULT_RETRY_OPTIONS])
    (by norm_num [DEFAULT_RETRY_OPTIONS])
  exact ⟨h1, h2.1, h2.2⟩

/-- C4 counterexample: the claim says the default classification treats
HTTP 429 as retryable, but under the default options (no caller
override) a failure whose message reports HTTP 429 is classified
non-retryable and `withRetry` raises it after a single attempt instead
of retrying. -/
theorem c4_default_429_counterexample :
    (mergeRetryOptions {}).retryOn "HTTP 429 Too Many Requests" = false
    ∧ (withRetry (fun _ => (Except.error "HTTP 429 Too Many Requests" : Except String Unit))
        (mergeRetryOptions {}) (fun _ => 0)).1
      = RetryResult.err "HTTP 429 Too Many Requests" 1 := ⟨rfl, rfl⟩

/-- C4 (amended): the default classification — used by `withRetry` when
the call site supplies no predicate — marks timeouts, network errors,
connection-reset/DNS errors and 5xx-class errors retryable and
everything else, HTTP 429 and the other 4xx errors included, as not
retryable; the 429-retryable exception lives in the
`PRINTIFY_OPERATION` preset, which marks 4xx non-retryable except 429. -/
theorem c4_retry_classification (s : String) :
    ((mergeRetryOptions {}).retryOn = defaultRetryOn)
    ∧ (strIncludes s "timeout" = true ∨ strIncludes s "network" = true
        ∨ strIncludes s "ECONNRESET" = true ∨ strIncludes s "ENOTFOUND" = true
        ∨ strIncludes s "500" = true ∨ strIncludes s "502" = true
        ∨ strIncludes s "503" = true ∨ strIncludes s "504" = true →
        defaultRetryOn s = true)
    ∧ (strIncludes s "timeout" = false → strIncludes s "network" = false →
        strIncludes s "ECONNRESET" = false → strIncludes s "ENOTFOUND" = false →
        strIncludes s "500" = false → strIncludes s "502" = false →
        strIncludes s "503" = false → strIncludes s "504" = false →
        defaultRetryOn s = false)
    ∧ (strIncludes s "429" = true → strIncludes s "400" = false →
        strIncludes s "401" = false → strIncludes s "403" = false →
        strIncludes s "404" = false → strIncludes s "422" = false →
        printifyRetryOn s = true)
    ∧ (strIncludes s "timeout" = false → strIncludes s "network" = false →
        strIncludes s "ECONNRESET" = false → strIncludes s "ENOTFOUND" = false →
        strIncludes s "500" = false → strIncludes s "502" = false →
        strIncludes s "503" = false → strIncludes s "504" = false →
        (strIncludes s "400" = true ∨ strIncludes s "401" = true
          ∨ strIncludes s "403" = true ∨ strIncludes s "404" = true
          ∨ strIncludes s "422" = true) →
        printifyRetryOn s = false) := by
  refine ⟨rfl, ?_, ?_, ?_, ?_⟩
  · intro h
    unfold defaultRetryOn
    rcases h with h | h | h | h | h | h | h | h <;> simp [h]
  · intro h1 h2 h3 h4 h5 h6 h7 h8
    simp [defaultRetryOn, h1, h2, h3, h4, h5, h6, h7, h8]
  · intro h429 h400 h401 h403 h404 h422
    unfold printifyRetryOn
    simp only [h400, h401, h403, h404, h422, h429, Bool.false_eq_true, if_false, if_true]
    split_ifs <;> rfl
  · intro h1 h2 h3 h4 h5 h6 h7 h8 hd
    unfold printifyRetryOn
    simp only [h1, h2, h3, h4, h5, h6, h7, h8, Bool.false_eq_true, if_false]
    rcases hd with h | h | h | h | h <;> simp [h]

/-- C4 amended witness: a plain timeout message is retryable under the
defaults, a bare 429 message is not, while the Printify preset retries
the 429 message but not a 404 one. -/
theorem c4_retry_classification_witness :
    defaultRetryOn "request timeout" = true
    ∧ defaultRetryOn "HTTP 429 Too Many Requests" = false
    ∧ printifyRetryOn "HTTP 429 Too Many Requests" = true
    ∧ printifyRetryOn "HTTP 404 Not Found" = false :=
  ⟨(c4_retry_classification "request timeout").2.1 (Or.inl rfl),
   (c4_retry_classification "HTTP 429 Too Many Requests").2.2.1
     rfl rfl rfl rfl rfl rfl rfl rfl,
   (c4_retry_classification "HTTP 429 Too Many Requests").2.2.2.1
     rfl rfl rfl rfl rfl rfl,
   (c4_retry_classification "HTTP 404 Not Found").2.2.2.2
     rfl rfl rfl rfl rfl rfl rfl rfl (Or.inr (Or.inr (Or.inr (Or.inl rfl))))⟩

/-! ## Claim theorems: payment commit coordinator -/

/-- Every terminal response `verifyPayment` produces carries status 402
(payment required) or 500 (configuration error). -/
theorem verifyPayment_fail_status (config : PaymentConfig) (env : VerifyEnv)
    (resp : HttpResponse)
    (h : (verifyPayment config env).1 = VerifyPaymentResult.fail resp) :
    resp.status = 402 ∨ resp.status = 500 := by
  unfold verifyPayment at h
  rcases hp : env.priceResult with e | a
  · rw [hp] at h
    simp at h
    subst h
    simp
  · rw [hp] at h
    rcases hn : env.networkSupported
    · simp [hn] at h
      subst h
      simp
    · rcases hh : env.paymentHeader with _ | tok
      · simp [hn, hh] at h
        subst h
        simp
      · rcases hd : env.decodeResult with de | dtok
        · simp [hn, hh, hd] at h
          subst h
          simp
        · rcases hm : env.matchesReq ⟨dtok, x402Version⟩ (buildRequirement config a)
          · simp [hn, hh, hd, constructedRequirements, List.find?, hm] at h
            subst h
            simp
          · rcases hvld : env.verdict.isValid
            · simp [hn, hh, hd, constructedRequirements, List.find?, hm, hvld] at h
              subst h
              simp
            · simp [hn, hh, hd, constructedRequirements, List.find?, hm, hvld] at h

/-- C9: `settlePayment` is total over the settle collaborator's
behaviour: it reports success with the transaction details exactly when
the collaborator reports success, and maps a reported failure or any
thrown exception to a `success: false` value carrying an error message,
never raising. -/
theorem c9_settle_never_raises (b : SettleBehaviour) :
    ((settlePayment b).success = true ↔ ∃ t n p, b = SettleBehaviour.succeeds t n p)
    ∧ (∀ t n p, b = SettleBehaviour.succeeds t n p →
        settlePayment b = { success := true, transaction := some t, network := some n,
                            payer := some p, error := none })
    ∧ ((settlePayment b).success = false →
        (∃ m, (settlePayment b).error = some m) ∧ (settlePayment b).transaction = none) := by
  cases b <;> simp [settlePayment]

/-- C9 witness: a successful settle propagates the transaction details;
a reported failure yields `success: false` with an error message. -/
theorem c9_settle_never_raises_witness :
    settlePayment (SettleBehaviour.succeeds "0xtx" "base" "0xpayer")
      = { success := true, transaction := some "0xtx", network := some "base",
          payer := some "0xpayer", error := none }
    ∧ (∃ m, (settlePayment SettleBehaviour.reportsFailure).error = some m) :=
  ⟨(c9_settle_never_raises (SettleBehaviour.succeeds "0xtx" "base" "0xpayer")).2.1
      "0xtx" "base" "0xpayer" rfl,
   ((c9_settle_never_raises SettleBehaviour.reportsFailure).2.2 rfl).1⟩

/-- C6: with no `X-PAYMENT` header on a supported network (price
processing succeeding), `verifyPayment` fails with a 402 response whose
`accepts` array is exactly the constructed requirement list (equal
lengths in particular), and the request triggers zero facilitator
`verify` calls and zero settlement calls. -/
theorem c6_missing_header_402 (env : ShirtEnv) (a : AssetInfo)
    (hprice : env.verifyEnv.priceResult = Except.ok a)
    (hnet : env.verifyEnv.networkSupported = true)
    (hhdr : env.verifyEnv.paymentHeader = none) :
    (verifyPayment (shirtConfig env.resourceUrl) env.verifyEnv).1
      = VerifyPaymentResult.fail
          ⟨402, RespBody.paymentRequired "X-PAYMENT header is required"
            (constructedRequirements (shirtConfig env.resourceUrl) a) none⟩
    ∧ (∀ err accepts py,
        (verifyPayment (shirtConfig env.resourceUrl) env.verifyEnv).1
          = VerifyPaymentResult.fail ⟨402, RespBody.paymentRequired err accepts py⟩ →
        accepts.length = (constructedRequirements (shirtConfig env.resourceUrl) a).length)
    ∧ (verifyPayment (shirtConfig env.resourceUrl) env.verifyEnv).2 = 0
    ∧ (shirtPOST env).verifyCalls = 0
    ∧ (shirtPOST env).settleCalls = 0 := by
  have hv : verifyPayment (shirtConfig env.resourceUrl) env.verifyEnv
      = (VerifyPaymentResult.fail
          ⟨402, RespBody.paymentRequired "X-PAYMENT header is required"
            (constructedRequirements (shirtConfig env.resourceUrl) a) none⟩, 0) := by
    unfold verifyPayment
    rw [hprice, hnet, hhdr]
    simp
  refine ⟨by rw [hv], ?_, by rw [hv], ?_, ?_⟩
  · intro err accepts py h
    rw [hv] at h
    simp only [VerifyPaymentResult.fail.injEq, HttpResponse.mk.injEq,
      RespBody.paymentRequired.injEq] at h
    rw [← h.2.2.1]
  · simp [shirtPOST, hv]
  · simp [shirtPOST, hv]

/-- C6 witness: a concrete request without the `X-PAYMENT` header gets
the 402 response with the one-element `accepts` list, and triggers no
verifier and no settler call. -/
theorem c6_missing_header_402_witness :
    (verifyPayment (shirtConfig "https://shirt.sh/api/shirts")
      { priceResult := Except.ok ⟨"20000000", "0xA0b1", some "eip712"⟩
        networkSupported := true
        paymentHeader := none
        decodeResult := Except.error "no header"
        matchesReq := fun _ _ => true
        verdict := ⟨true, none, none⟩ }).1
      = VerifyPaymentResult.fail
          ⟨402, RespBody.paymentRequired "X-PAYMENT header is required"
            (constructedRequirements (shirtConfig "https://shirt.sh/api/shirts")
              ⟨"20000000", "0xA0b1", some "eip712"⟩) none⟩
    ∧ (verifyPayment (shirtConfig "https://shirt.sh/api/shirts")
      { priceResult := Except.ok ⟨"20000000", "0xA0b1", some "eip712"⟩
        networkSupported := true
        paymentHeader := none
        decodeResult := Except.error "no header"
        matchesReq := fun _ _ => true
        verdict := ⟨true, none, none⟩ }).2 = 0
    ∧ (shirtPOST
      { resourceUrl := "https://shirt.sh/api/shirts"
        verifyEnv :=
          { priceResult := Except.ok ⟨"20000000", "0xA0b1", some "eip712"⟩
            networkSupported := true
            paymentHeader := none
            decodeResult := Except.error "no header"
            matchesReq := fun _ _ => true
            verdict := ⟨true, none, none⟩ }
        bodyParse := Except.ok ()
        zodOk := true
        bizOk := true
        jobId := "job-c6"
        workflowOp := fun _ => Except.ok ("i", "p", "o")
        rnd := fun _ => 0
        settle := SettleBehaviour.succeeds "0xt" "base" "0xp" }).settleCalls = 0 := by
  have h := c6_missing_header_402
    { resourceUrl := "https://shirt.sh/api/shirts"
      verifyEnv :=
        { priceResult := Except.ok ⟨"20000000", "0xA0b1", some "eip712"⟩
          networkSupported := true
          paymentHeader := none
          decodeResult := Except.error "no header"
          matchesReq := fun _ _ => true
          verdict := ⟨true, none, none⟩ }
      bodyParse := Except.ok ()
      zodOk := true
      bizOk := true
      jobId := "job-c6"
      workflowOp := fun _ => Except.ok ("i", "p", "o")
      rnd := fun _ => 0
      settle := SettleBehaviour.succeeds "0xt" "base" "0xp" }
    ⟨"20000000", "0xA0b1", some "eip712"⟩ rfl rfl rfl
  exact ⟨h.1, h.2.2.1, h.2.2.2.2⟩

/-- C1: in `POST /api/shirts`, settlement is called at most once, and
only when the side-effect workflow reported success; when the workflow
reports failure — or the request processing throws (`req.json()`
rejecting) — no settlement call is made and the requester gets a 500
internal-error response. -/
theorem c1_settle_iff_workflow_success (env : ShirtEnv) :
    (shirtPOST env).settleCalls ≤ 1
    ∧ ((shirtPOST env).settleCalls = 1 →
        (executeCreateShirtWorkflow env.workflowOp env.rnd env.jobId).success = true)
    ∧ ((executeCreateShirtWorkflow env.workflowOp env.rnd env.jobId).success = false →
        (shirtPOST env).settleCalls = 0)
    ∧ (∀ p r, (verifyPayment (shirtConfig env.resourceUrl) env.verifyEnv).1
          = VerifyPaymentResult.ok p r →
        env.bodyParse = Except.ok () → env.zodOk = true → env.bizOk = true →
        (executeCreateShirtWorkflow env.workflowOp env.rnd env.jobId).success = false →
        (shirtPOST env).settleCalls = 0 ∧ (shirtPOST env).response.status = 500)
    ∧ (∀ p r m, (verifyPayment (shirtConfig env.resourceUrl) env.verifyEnv).1
          = VerifyPaymentResult.ok p r →
        env.bodyParse = Except.error m →
        (shirtPOST env).settleCalls = 0
        ∧ (shirtPOST env).response = ⟨500, RespBody.internalError⟩) := by
  rcases hv : (verifyPayment (shirtConfig env.resourceUrl) env.verifyEnv).1 with ⟨p, r⟩ | ⟨resp⟩
  · rcases hb : env.bodyParse with m | u
    · refine ⟨?_, ?_, ?_, ?_, ?_⟩ <;> simp [shirtPOST, hv, hb]
    · rcases hz : env.zodOk
      · refine ⟨?_, ?_, ?_, ?_, ?_⟩ <;> simp [shirtPOST, hv, hb, hz]
      · rcases hbiz : env.bizOk
        · refine ⟨?_, ?_, ?_, ?_, ?_⟩ <;> simp [shirtPOST, hv, hb, hz, hbiz]
        · rcases hw : (executeCreateShirtWorkflow env.workflowOp env.rnd env.jobId).success
          · refine ⟨?_, ?_, ?_, ?_, ?_⟩ <;> simp [shirtPOST, hv, hb, hz, hbiz, hw]
          · refine ⟨?_, ?_, ?_, ?_, ?_⟩ <;> simp [shirtPOST, hv, hb, hz, hbiz, hw]
  · refine ⟨?_, ?_, ?_, ?_, ?_⟩ <;> simp [shirtPOST, hv]

/-- C1 witness: with a verified payment and a workflow that fails every
attempt with a retryable error, the handler settles nothing and answers
500. -/
theorem c1_settle_iff_workflow_success_witness :
    (shirtPOST
      { resourceUrl := "https://shirt.sh/api/shirts"
        verifyEnv :=
          { priceResult := Except.ok ⟨"20000000", "0xA0b1", some "eip712"⟩
            networkSupported := true
            paymentHeader := some "hdr"
            decodeResult := Except.ok "tok"
            matchesReq := fun _ _ => true
            verdict := ⟨true, none, none⟩ }
        bodyParse := Except.ok ()
        zodOk := true
        bizOk := true
        jobId := "job-c1"
        workflowOp := fun _ => Except.error "Printify 503 network error"
        rnd := fun _ => 0
        settle := SettleBehaviour.succeeds "0xt" "base" "0xp" }).settleCalls = 0
    ∧ (shirtPOST
      { resourceUrl := "https://shirt.sh/api/shirts"
        verifyEnv :=
          { priceResult := Except.ok ⟨"20000000", "0xA0b1", some "eip712"⟩
            networkSupported := true
            paymentHeader := some "hdr"
            decodeResult := Except.ok "tok"
            matchesReq := fun _ _ => true
            verdict := ⟨true, none, none⟩ }
        bodyParse := Except.ok ()
        zodOk := true
        bizOk := true
        jobId := "job-c1"
        workflowOp := fun _ => Except.error "Printify 503 network error"
        rnd := fun _ => 0
        settle := SettleBehaviour.succeeds "0xt" "base" "0xp" }).response.status = 500 :=
  (c1_settle_iff_workflow_success _).2.2.2.1
    ⟨"tok", 1⟩
    (buildRequirement (shirtConfig "https://shirt.sh/api/shirts")
      ⟨"20000000", "0xA0b1", some "eip712"⟩)
    rfl rfl rfl rfl rfl

/-- On a successful run the workflow result carries concrete product and
order identifiers. -/
theorem executeCreateShirtWorkflow_success_ids
    (op : Nat → Except String (String × String × String)) (rnd : Nat → ℚ) (jobId : String)
    (hw : (executeCreateShirtWorkflow op rnd jobId).success = true) :
    ∃ pid oid, (executeCreateShirtWorkflow op rnd jobId).productId = some pid
      ∧ (executeCreateShirtWorkflow op rnd jobId).orderId = some oid := by
  unfold executeCreateShirtWorkflow at hw ⊢
  rcases hr : (withRetry op WORKFLOW_OPTIONS rnd).1 with ⟨⟨i, pid, oid⟩, a⟩ | e | _ <;>
    simp_all

/-- C7: verified payment, successful workflow, failing settler — the
handler still answers 200 with the product and order identifiers, makes
exactly one settlement call, and logs one settlement-failure warning. -/
theorem c7_settlement_failure_honored (env : ShirtEnv) (p : DecodedPayment)
    (r : PaymentRequirement)
    (hv : (verifyPayment (shirtConfig env.resourceUrl) env.verifyEnv).1
      = VerifyPaymentResult.ok p r)
    (hb : env.bodyParse = Except.ok ())
    (hz : env.zodOk = true) (hbiz : env.bizOk = true)
    (hw : (executeCreateShirtWorkflow env.workflowOp env.rnd env.jobId).success = true)
    (hs : (settlePayment env.settle).success = false) :
    (shirtPOST env).response.status = 200
    ∧ (∃ pid oid, (shirtPOST env).response.body
        = RespBody.completed env.jobId (some pid) (some oid))
    ∧ (shirtPOST env).settleCalls = 1
    ∧ (shirtPOST env).settlementWarnings = 1 := by
  obtain ⟨pid, oid, h1, h2⟩ :=
    executeCreateShirtWorkflow_success_ids env.workflowOp env.rnd env.jobId hw
  refine ⟨?_, ⟨pid, oid, ?_⟩, ?_, ?_⟩ <;>
    simp [shirtPOST, hv, hb, hz, hbiz, hw, hs, h1, h2]

/-- C7 witness: a concrete request with a valid payment, a workflow that
succeeds first try, and a settler that reports failure gets a 200 with
the identifiers and one logged warning. -/
theorem c7_settlement_failure_honored_witness :
    (shirtPOST
      { resourceUrl := "https://shirt.sh/api/shirts"
        verifyEnv :=
          { priceResult := Except.ok ⟨"20000000", "0xA0b1", some "eip712"⟩
            networkSupported := true
            paymentHeader := some "hdr"
            decodeResult := Except.ok "tok"
            matchesReq := fun _ _ => true
            verdict := ⟨true, none, none⟩ }
        bodyParse := Except.ok ()
        zodOk := true
        bizOk := true
        jobId := "job-c7"
        workflowOp := fun _ => Except.ok ("img.png", "prod-1", "order-1")
        rnd := fun _ => 0
        settle := SettleBehaviour.reportsFailure }).response.status = 200
    ∧ (∃ pid oid, (shirtPOST
      { resourceUrl := "https://shirt.sh/api/shirts"
        verifyEnv :=
          { priceResult := Except.ok ⟨"20000000", "0xA0b1", some "eip712"⟩
            networkSupported := true
            paymentHeader := some "hdr"
            decodeResult := Except.ok "tok"
            matchesReq := fun _ _ => true
            verdict := ⟨true, none, none⟩ }
        bodyParse := Except.ok ()
        zodOk := true
        bizOk := true
        jobId := "job-c7"
        workflowOp := fun _ => Except.ok ("img.png", "prod-1", "order-1")
        rnd := fun _ => 0
        settle := SettleBehaviour.reportsFailure }).response.body
        = RespBody.completed "job-c7" (some pid) (some oid)) := by
  have h := c7_settlement_failure_honored
    { resourceUrl := "https://shirt.sh/api/shirts"
      verifyEnv :=
        { priceResult := Except.ok ⟨"20000000", "0xA0b1", some "eip712"⟩
          networkSupported := true
          paymentHeader := some "hdr"
          decodeResult := Except.ok "tok"
          matchesReq := fun _ _ => true
          verdict := ⟨true, none, none⟩ }
      bodyParse := Except.ok ()
      zodOk := true
      bizOk := true
      jobId := "job-c7"
      workflowOp := fun _ => Except.ok ("img.png", "prod-1", "order-1")
      rnd := fun _ => 0
      settle := SettleBehaviour.reportsFailure }
    ⟨"tok", 1⟩
    (buildRequirement (shirtConfig "https://shirt.sh/api/shirts")
      ⟨"20000000", "0xA0b1", some "eip712"⟩)
    rfl rfl rfl rfl rfl rfl
  exact ⟨h.1, h.2.1⟩

/-- C10: payment verification precedes body handling in
`POST /api/shirts`: if verification fails, the payment-phase response
(status 402 or 500) is returned unchanged whatever the body-related
environment is, and a 400 or 422 response can only arise after
verification succeeded. -/
theorem c10_payment_before_body (env : ShirtEnv) :
    (∀ resp, (verifyPayment (shirtConfig env.resourceUrl) env.verifyEnv).1
        = VerifyPaymentResult.fail resp →
      (shirtPOST env).response = resp
      ∧ (resp.status = 402 ∨ resp.status = 500)
      ∧ (∀ envB : ShirtEnv, envB.resourceUrl = env.resourceUrl →
          envB.verifyEnv = env.verifyEnv → (shirtPOST envB).response = resp))
    ∧ ((shirtPOST env).response.status = 400 ∨ (shirtPOST env).response.status = 422 →
        ∃ p r, (verifyPayment (shirtConfig env.resourceUrl) env.verifyEnv).1
          = VerifyPaymentResult.ok p r) := by
  constructor
  · intro resp hfail
    refine ⟨by simp [shirtPOST, hfail], verifyPayment_fail_status _ _ _ hfail, ?_⟩
    intro envB h1 h2
    simp [shirtPOST, h1, h2, hfail]
  · intro hst
    rcases hv : (verifyPayment (shirtConfig env.resourceUrl) env.verifyEnv).1 with ⟨p, r⟩ | ⟨resp⟩
    · exact ⟨p, r, by simp [hv]⟩
    · exfalso
      have hs := verifyPayment_fail_status _ _ _ hv
      have hr : (shirtPOST env).response = resp := by simp [shirtPOST, hv]
      rw [hr] at hst
      omega

/-- C10 witness: with a verifier that rejects the payment, the handler
returns the 402 verification response even though the body would fail
validation (zodOk false), and no 400 is produced. -/
theorem c10_payment_before_body_witness :
    (shirtPOST
      { resourceUrl := "https://shirt.sh/api/shirts"
        verifyEnv :=
          { priceResult := Except.ok ⟨"20000000", "0xA0b1", some "eip712"⟩
            networkSupported := true
            paymentHeader := some "hdr"
            decodeResult := Except.ok "tok"
            matchesReq := fun _ _ => true
            verdict := ⟨false, some "insufficient_funds", some "0xpayer"⟩ }
        bodyParse := Except.ok ()
        zodOk := false
        bizOk := true
        jobId := "job-c10"
        workflowOp := fun _ => Except.ok ("i", "p", "o")
        rnd := fun _ => 0
        settle := SettleBehaviour.reportsFailure }).response
      = ⟨402, RespBody.paymentRequired "insufficient_funds"
          (constructedRequirements (shirtConfig "https://shirt.sh/api/shirts")
            ⟨"20000000", "0xA0b1", some "eip712"⟩) (some "0xpayer")⟩ :=
  ((c10_payment_before_body
    { resourceUrl := "https://shirt.sh/api/shirts"
      verifyEnv :=
        { priceResult := Except.ok ⟨"20000000", "0xA0b1", some "eip712"⟩
          networkSupported := true
          paymentHeader := some "hdr"
          decodeResult := Except.ok "tok"
          matchesReq := fun _ _ => true
          verdict := ⟨false, some "insufficient_funds", some "0xpayer"⟩ }
      bodyParse := Except.ok ()
      zodOk := false
      bizOk := true
      jobId := "job-c10"
      workflowOp := fun _ => Except.ok ("i", "p", "o")
      rnd := fun _ => 0
      settle := SettleBehaviour.reportsFailure }).1
    ⟨402, RespBody.paymentRequired "insufficient_funds"
      (constructedRequirements (shirtConfig "https://shirt.sh/api/shirts")
        ⟨"20000000", "0xA0b1", some "eip712"⟩) (some "0xpayer")⟩ rfl).1

/-- C8 counterexample: in the dynamically-priced order route the
value-split transfer is attempted (here: once, successfully) although no
settlement call is ever made — the route performs no settlement at all,
so the split cannot be "only after settlement succeeds". -/
theorem c8_split_without_settlement_counterexample :
    (orderPOST
      { productId := "prod-9"
        bodyParse := Except.ok ()
        zodOk := true
        bizOk := true
        productFetch := Except.ok (some ⟨[⟨73207, true⟩]⟩)
        metadata := some ⟨500, some "0xCreator"⟩
        verifyEnv := { paymentToken := some "tok", fetchResult := Except.ok ⟨true, "OK", true, none⟩ }
        orderResult := Except.ok "order-9"
        splitResult := Except.ok "0xtxhash"
        jobId := "job-c8" }).splitAttempts = 1
    ∧ (orderPOST
      { productId := "prod-9"
        bodyParse := Except.ok ()
        zodOk := true
        bizOk := true
        productFetch := Except.ok (some ⟨[⟨73207, true⟩]⟩)
        metadata := some ⟨500, some "0xCreator"⟩
        verifyEnv := { paymentToken := some "tok", fetchResult := Except.ok ⟨true, "OK", true, none⟩ }
        orderResult := Except.ok "order-9"
        splitResult := Except.ok "0xtxhash"
        jobId := "job-c8" }).settleCalls = 0 := ⟨rfl, rfl⟩

/-- C8 (amended): in the dynamically-priced order route the value-split
transfer is attempted at most once, and only after payment verification
succeeds and the Printify order is created — the route never calls the
settlement function at all — and only when the product metadata carries
a truthy creator address and a positive margin; a failure of the
transfer is logged but does not unwind the order: the response is still
a 200 success. -/
theorem c8_split_best_effort (env : OrderEnv) :
    (orderPOST env).settleCalls = 0
    ∧ (orderPOST env).splitAttempts ≤ 1
    ∧ ((orderPOST env).splitAttempts = 1 →
        (verifyX402Payment env.verifyEnv).valid = true
        ∧ (∃ oid, env.orderResult = Except.ok oid)
        ∧ (∃ md, env.metadata = some md
            ∧ jsTruthy md.creatorAddress = true ∧ 0 < md.margin))
    ∧ ((orderPOST env).splitAttempts = 1 → ∀ m, env.splitResult = Except.error m →
        (orderPOST env).response.status = 200
        ∧ (∃ oid, (orderPOST env).response.body
            = OrderRespBody.completed env.jobId env.productId oid none)
        ∧ (orderPOST env).splitFailureLogs = 1) := by
  rcases hbp : env.bodyParse with m | u
  · refine ⟨?_, ?_, ?_, ?_⟩ <;> simp [orderPOST, hbp]
  · rcases hz : env.zodOk
    · refine ⟨?_, ?_, ?_, ?_⟩ <;> simp [orderPOST, hbp, hz]
    · rcases hbiz : env.bizOk
      · refine ⟨?_, ?_, ?_, ?_⟩ <;> simp [orderPOST, hbp, hz, hbiz]
      · rcases hpf : env.productFetch with m | _ | product
        · refine ⟨?_, ?_, ?_, ?_⟩ <;> simp [orderPOST, hbp, hz, hbiz, hpf]
        · refine ⟨?_, ?_, ?_, ?_⟩ <;> simp [orderPOST, hbp, hz, hbiz, hpf]
        · rcases hmd : env.metadata with _ | md
          · refine ⟨?_, ?_, ?_, ?_⟩ <;> simp [orderPOST, hbp, hz, hbiz, hpf, hmd]
          · rcases hvv : (verifyX402Payment env.verifyEnv).valid
            · refine ⟨?_, ?_, ?_, ?_⟩ <;> simp [orderPOST, hbp, hz, hbiz, hpf, hmd, hvv]
            · rcases hfind : product.variants.find? (fun v => v.isEnabled) with _ | variant
              · refine ⟨?_, ?_, ?_, ?_⟩ <;>
                  simp [orderPOST, hbp, hz, hbiz, hpf, hmd, hvv, hfind]
              · rcases hor : env.orderResult with m | oid
                · refine ⟨?_, ?_, ?_, ?_⟩ <;>
                    simp [orderPOST, hbp, hz, hbiz, hpf, hmd, hvv, hfind, hor]
                · rcases hcr : jsTruthy md.creatorAddress && decide (0 < md.margin)
                  · refine ⟨?_, ?_, ?_, ?_⟩ <;>
                      simp [orderPOST, hbp, hz, hbiz, hpf, hmd, hvv, hfind, hor, hcr]
                  · have hcr2 := hcr
                    rw [Bool.and_eq_true] at hcr2
                    have hmargin : 0 < md.margin := by
                      have := hcr2.2
                      exact of_decide_eq_true this
                    rcases hsp : env.splitResult with m | tx
                    · refine ⟨?_, ?_, ?_, ?_⟩ <;>
                        simp [orderPOST, hbp, hz, hbiz, hpf, hmd, hvv, hfind, hor, hcr, hsp]
                      exact ⟨hcr2.1, hmargin⟩
                    · refine ⟨?_, ?_, ?_, ?_⟩ <;>
                        simp [orderPOST, hbp, hz, hbiz, hpf, hmd, hvv, hfind, hor, hcr, hsp]
                      exact ⟨hcr2.1, hmargin⟩

/-- C8 amended witness: a concrete order whose split transfer throws
still gets a 200 with the order id, one split attempt, one logged split
failure, and zero settlement calls. -/
theorem c8_split_best_effort_witness :
    (orderPOST
      { productId := "prod-8"
        bodyParse := Except.ok ()
        zodOk := true
        bizOk := true
        productFetch := Except.ok (some ⟨[⟨73207, true⟩]⟩)
        metadata := some ⟨500, some "0xCreator"⟩
        verifyEnv := { paymentToken := some "tok", fetchResult := Except.ok ⟨true, "OK", true, none⟩ }
        orderResult := Except.ok "order-8"
        splitResult := Except.error "transfer reverted"
        jobId := "job-c8w" }).settleCalls = 0
    ∧ (orderPOST
      { productId := "prod-8"
        bodyParse := Except.ok ()
        zodOk := true
        bizOk := true
        productFetch := Except.ok (some ⟨[⟨73207, true⟩]⟩)
        metadata := some ⟨500, some "0xCreator"⟩
        verifyEnv := { paymentToken := some "tok", fetchResult := Except.ok ⟨true, "OK", true, none⟩ }
        orderResult := Except.ok "order-8"
        splitResult := Except.error "transfer reverted"
        jobId := "job-c8w" }).response.status = 200
    ∧ (orderPOST
      { productId := "prod-8"
        bodyParse := Except.ok ()
        zodOk := true
        bizOk := true
        productFetch := Except.ok (some ⟨[⟨73207, true⟩]⟩)
        metadata := some ⟨500, some "0xCreator"⟩
        verifyEnv := { paymentToken := some "tok", fetchResult := Except.ok ⟨true, "OK", true, none⟩ }
        orderResult := Except.ok "order-8"
        splitResult := Except.error "transfer reverted"
        jobId := "job-c8w" }).splitFailureLogs = 1 := by
  have h := c8_split_best_effort
    { productId := "prod-8"
      bodyParse := Except.ok ()
      zodOk := true
      bizOk := true
      productFetch := Except.ok (some ⟨[⟨73207, true⟩]⟩)
      metadata := some ⟨500, some "0xCreator"⟩
      verifyEnv := { paymentToken := some "tok", fetchResult := Except.ok ⟨true, "OK", true, none⟩ }
      orderResult := Except.ok "order-8"
      splitResult := Except.error "transfer reverted"
      jobId := "job-c8w" }
  have h4 := h.2.2.2 rfl "transfer reverted" rfl
  exact ⟨h.1, h4.1, h4.2.2⟩

end ShirtSh
